import Mathlib

/-!
Verification of the GuestLens frontend (a single-page listing-risk dashboard).

The React components are embedded shallowly: each component's render output is
a Lean structure holding the CSS class names and text it produces, and each
component function is translated directly from its JSX source.  JS numbers are
modelled as rationals, JS `undefined` as `Option.none`, and a JS `TypeError`
raised by a property access on `undefined` as `Except.error`.
-/

namespace GuestLens

/-! ## ActionBanner.jsx -/

/-- One entry of the `actionConfig` object literal in `ActionBanner.jsx`:
a CSS class name and the fixed banner text. -/
structure ActionCfg where
  className : String
  text : String
deriving Repr, DecidableEq

/-- The `actionConfig.flag` entry. -/
def flagCfg : ActionCfg :=
  ⟨"action-flag", "🚨 ACTION REQUIRED: Flag this listing for review"⟩

/-- The `actionConfig.monitor` entry. -/
def monitorCfg : ActionCfg :=
  ⟨"action-monitor", "👁️ Keep monitoring this listing"⟩

/-- The `actionConfig.ignore` entry. -/
def ignoreCfg : ActionCfg :=
  ⟨"action-ignore", "✓ No action needed"⟩

/-- The property names an object literal inherits from `Object.prototype`
(including the Annex B accessors present in browsers).  Looking any of these
up on `actionConfig` yields a truthy value (a function, or for `__proto__`
the prototype object itself), not `undefined`. -/
def objectPrototypeKeys : List String :=
  ["constructor", "hasOwnProperty", "isPrototypeOf", "propertyIsEnumerable",
   "toLocaleString", "toString", "valueOf", "__proto__",
   "__defineGetter__", "__defineSetter__", "__lookupGetter__",
   "__lookupSetter__"]

/-- The possible results of the JS property lookup `actionConfig[action]`:
one of the literal's own entries, a truthy value inherited from
`Object.prototype` (which has neither a `className` nor a `text` property),
or `undefined`. -/
inductive JsPropValue where
  | config (cfg : ActionCfg)
  | inherited
  | undefined
deriving Repr, DecidableEq

/-- JS truthiness of a lookup result: only `undefined` is falsy here. -/
def JsPropValue.truthy : JsPropValue → Bool
  | .undefined => false
  | _ => true

/-- The JS property lookup `actionConfig[action]`: an own property of the
object literal when `action` is one of its three keys, otherwise whatever
`Object.prototype` provides, otherwise `undefined`. -/
def actionConfig (action : String) : JsPropValue :=
  if action = "flag" then .config flagCfg
  else if action = "monitor" then .config monitorCfg
  else if action = "ignore" then .config ignoreCfg
  else if action ∈ objectPrototypeKeys then .inherited
  else .undefined

/-- The JS `||` operator on a lookup result: the left operand unless it is
falsy. -/
def jsOr (v fallback : JsPropValue) : JsPropValue :=
  if v.truthy then v else fallback

/-- `config.className` interpolated into the template literal
`` `action-banner ${config.className}` ``: an inherited function has no
`className` property, and a template literal renders `undefined` as the
text `undefined`. -/
def configClassName : JsPropValue → String
  | .config cfg => cfg.className
  | _ => "undefined"

/-- `config.text` rendered as the JSX child `{config.text}`: React renders
`undefined` as nothing. -/
def configText : JsPropValue → String
  | .config cfg => cfg.text
  | _ => ""

/-- The rendered banner `<div>`: its full class attribute and its text. -/
structure BannerView where
  className : String
  text : String
deriving Repr, DecidableEq

/-- `ActionBanner({ action })`: `actionConfig[action] || actionConfig.ignore`,
rendered as a div with class `action-banner <config.className>` containing
`config.text`. -/
def ActionBanner (action : String) : BannerView :=
  let config := jsOr (actionConfig action) (.config ignoreCfg)
  ⟨"action-banner " ++ configClassName config, configText config⟩

/-! ## RiskDrivers (in ActionBanner.jsx's sibling file) -/

/-- The body of the `RiskDrivers` component: either the single
positive-affirmation paragraph or a `<ul>` whose items are the drivers. -/
inductive RiskDriversBody where
  | noDrivers (msg : String)
  | items (lis : List String)
deriving Repr, DecidableEq

/-- `RiskDrivers({ drivers })`: if `drivers.length === 0`, the affirmation
paragraph; otherwise `drivers.map(driver => <li>{driver}</li>)`. -/
def RiskDrivers (drivers : List String) : RiskDriversBody :=
  if drivers.length = 0 then
    .noDrivers "✓ No significant risk factors detected"
  else
    .items (drivers.map (fun driver => driver))

/-- The list items rendered by a `RiskDriversBody` (none for the
affirmation paragraph). -/
def RiskDriversBody.listItems : RiskDriversBody → List String
  | .noDrivers _ => []
  | .items lis => lis

/-! ## AspectsGrid.jsx -/

/-- JS `String.prototype.replace` with a plain-string pattern replaces only
the first occurrence; this is `name.replace('_', ' ')` on the character
list of the name. -/
def replaceFirstUnderscore : List Char → List Char
  | [] => []
  | c :: cs => if c = '_' then ' ' :: cs else c :: replaceFirstUnderscore cs

/-- The `<h3>` header text of an aspect card: `aspect.name.replace('_', ' ')`. -/
def aspectHeader (name : String) : String :=
  ⟨replaceFirstUnderscore name.data⟩

/-- The text content of the trend `<span>`: the two JSX conditionals
`trend === 'improving' && '↑ '` and `trend === 'declining' && '↓ '`
(a false conjunct renders nothing), followed by the trend value itself. -/
def trendText (trend : String) : String :=
  (if trend = "improving" then "↑ " else "")
    ++ (if trend = "declining" then "↓ " else "")
    ++ trend

/-- An `Aspect` record as consumed by `AspectCard`. -/
structure Aspect where
  name : String
  sentiment : ℚ
  sentiment_label : String
  trend : String
  variance_label : String
  mention_count : ℤ
deriving Repr, DecidableEq

/-- The rendered aspect card.  The numeric sentiment is kept as the number
shown (to two decimal places) next to the label. -/
structure AspectCardView where
  header : String
  sentimentLabel : String
  sentiment : ℚ
  trendClass : String
  trendText : String
  varianceLabel : String
  mentionCount : ℤ
deriving Repr, DecidableEq

/-- `AspectCard({ aspect })` translated row by row from the JSX. -/
def AspectCard (aspect : Aspect) : AspectCardView :=
  { header := aspectHeader aspect.name
    sentimentLabel := aspect.sentiment_label
    sentiment := aspect.sentiment
    trendClass := "trend-" ++ aspect.trend
    trendText := trendText aspect.trend
    varianceLabel := aspect.variance_label
    mentionCount := aspect.mention_count }

/-- `AspectsGrid({ aspects })`: one card per aspect, in order. -/
def AspectsGrid (aspects : List Aspect) : List AspectCardView :=
  aspects.map (fun aspect => AspectCard aspect)

/-! ## StatusCard.jsx

JS numbers are modelled as rationals.  `Math.round(x)` on a finite number is
`⌊x + 1/2⌋` (JS rounds half toward positive infinity). -/

/-- JS `Math.round` on a (finite) number. -/
def jsRound (q : ℚ) : ℤ := ⌊q + 1/2⌋

/-- The rendered status card.  The numeric risk score is kept as the number
interpolated in front of the literal `/100`. -/
structure StatusCardView where
  cardClass : String
  riskValueClass : String
  riskText : String
  riskScore : ℚ
  confidenceText : String
  ratingTrustClass : String
  ratingTrustText : String
deriving Repr, DecidableEq

/-- `StatusCard({ risk, riskScore, confidence, ratingTrust })` translated
field by field from the JSX: the card class is `status-card risk-<lower>`,
the risk value class is `metric-value <lower>`, the confidence metric is
`Math.round(confidence * 100)` followed by `%`, and the rating-trust class is
`metric-value low` when `ratingTrust === 'Reliable'` and
`metric-value high` otherwise. -/
def StatusCard (risk : String) (riskScore : ℚ) (confidence : ℚ)
    (ratingTrust : String) : StatusCardView :=
  { cardClass := "status-card risk-" ++ risk.toLower
    riskValueClass := "metric-value " ++ risk.toLower
    riskText := risk
    riskScore := riskScore
    confidenceText := toString (jsRound (confidence * 100)) ++ "%"
    ratingTrustClass :=
      "metric-value " ++ (if ratingTrust = "Reliable" then "low" else "high")
    ratingTrustText := ratingTrust }

/-! ## Rendering with possibly-missing fields

`App.jsx` passes `assessment.overall_risk`, `assessment.aspects`, … straight
into the components without validation.  A missing JSON field is JS
`undefined`, modelled as `none`.  A property access or method call on
`undefined` raises a `TypeError`, modelled as `Except.error`; every other use
of `undefined` (equality test, arithmetic producing `NaN`, interpolation
rendering as blank) is total. -/

/-- Whether an `Except`-modelled render raised an error. -/
def throwsError {α : Type} : Except String α → Bool
  | .error _ => true
  | .ok _ => false

/-- Interpolating a possibly-`undefined` string into JSX: React renders
`undefined` as nothing. -/
def jsxText : Option String → String
  | none => ""
  | some s => s

/-- `Math.round(confidence * 100)` with a possibly-`undefined` confidence:
`undefined * 100` is `NaN`, and `Math.round(NaN)` is `NaN`, which renders as
the text `NaN`. -/
def confidenceTextOpt : Option ℚ → String
  | none => "NaN%"
  | some confidence => toString (jsRound (confidence * 100)) ++ "%"

/-- `StatusCard` on possibly-missing props.  `risk.toLowerCase()` on
`undefined` throws; every other prop is used only in equality tests,
arithmetic, or interpolation and so propagates as blank/NaN. -/
def StatusCardOpt (risk : Option String) (riskScore : Option ℚ)
    (confidence : Option ℚ) (ratingTrust : Option String) :
    Except String StatusCardView :=
  match risk with
  | none => .error "TypeError: undefined has no method toLowerCase"
  | some r =>
    .ok { cardClass := "status-card risk-" ++ r.toLower
          riskValueClass := "metric-value " ++ r.toLower
          riskText := r
          riskScore := riskScore.getD 0
          confidenceText := confidenceTextOpt confidence
          ratingTrustClass :=
            "metric-value " ++ (if ratingTrust = some "Reliable" then "low" else "high")
          ratingTrustText := jsxText ratingTrust }

/-- An `Aspect` record with possibly-missing fields. -/
structure AspectOpt where
  name : Option String
  sentiment : Option ℚ
  sentiment_label : Option String
  trend : Option String
  variance_label : Option String
  mention_count : Option ℤ
deriving Repr, DecidableEq

/-- `AspectCard` on a record with possibly-missing fields:
`aspect.name.replace(...)` and `aspect.sentiment.toFixed(2)` throw on
`undefined`; `'trend-' + undefined` concatenates to `trend-undefined` and the
trend equality tests are simply false. -/
def AspectCardOpt (aspect : AspectOpt) : Except String AspectCardView :=
  match aspect.name with
  | none => .error "TypeError: undefined has no method replace"
  | some n =>
    match aspect.sentiment with
    | none => .error "TypeError: undefined has no method toFixed"
    | some s =>
      .ok { header := aspectHeader n
            sentimentLabel := jsxText aspect.sentiment_label
            sentiment := s
            trendClass := "trend-" ++ (aspect.trend.getD "undefined")
            trendText := trendText (aspect.trend.getD "undefined")
            varianceLabel := jsxText aspect.variance_label
            mentionCount := aspect.mention_count.getD 0 }

/-- `AspectsGrid` on a possibly-missing `aspects` prop:
`aspects.map(...)` throws on `undefined`; otherwise each card renders in
order (and the first card that throws aborts the render). -/
def AspectsGridOpt (aspects : Option (List AspectOpt)) :
    Except String (List AspectCardView) :=
  match aspects with
  | none => .error "TypeError: undefined has no method map"
  | some l => l.mapM AspectCardOpt

/-- `RiskDrivers` on a possibly-missing `drivers` prop: `drivers.length`
throws on `undefined`. -/
def RiskDriversOpt (drivers : Option (List String)) :
    Except String RiskDriversBody :=
  match drivers with
  | none => .error "TypeError: undefined has no property length"
  | some d => .ok (RiskDrivers d)

/-- `ActionBanner` on a possibly-missing `action` prop:
`actionConfig[undefined]` is `undefined`, so `|| actionConfig.ignore`
falls back; the component never throws. -/
def ActionBannerOpt (action : Option String) : BannerView :=
  match action with
  | none => ⟨"action-banner " ++ ignoreCfg.className, ignoreCfg.text⟩
  | some a => ActionBanner a

/-- The `Assessment` JSON object as received by `App.jsx`, every field
possibly missing. -/
structure Assessment where
  overall_risk : Option String
  risk_score : Option ℚ
  confidence : Option ℚ
  rating_trust : Option String
  aspects : Option (List AspectOpt)
  risk_drivers : Option (List String)
  recommended_action : Option String
  review_count : Option ℤ
  assessment_date : Option String
deriving Repr, DecidableEq

/-- The four assessment-dependent components rendered by `App.jsx`, in
document order (StatusCard, AspectsGrid, RiskDrivers, ActionBanner); the
first TypeError aborts the render. -/
structure AssessmentSection where
  status : StatusCardView
  grid : List AspectCardView
  drivers : RiskDriversBody
  banner : BannerView
deriving Repr, DecidableEq

/-- Rendering the assessment-dependent section of `App.jsx` from a
possibly-partial `Assessment`. -/
def renderAssessment (a : Assessment) : Except String AssessmentSection := do
  let status ← StatusCardOpt a.overall_risk a.risk_score a.confidence a.rating_trust
  let grid ← AspectsGridOpt a.aspects
  let drivers ← RiskDriversOpt a.risk_drivers
  pure { status := status, grid := grid, drivers := drivers
         banner := ActionBannerOpt a.recommended_action }

/-! ## App.jsx — state and fetch transitions -/

/-- The five `useState` fields of `App`. -/
structure AppState where
  listings : List String
  selectedListing : String
  assessment : Option Assessment
  loading : Bool
  error : Option String
deriving Repr, DecidableEq

/-- The initial state of `App` on mount. -/
def initState : AppState :=
  { listings := [], selectedListing := "", assessment := none
    loading := false, error := none }

/-- A network request issued by `App`. -/
inductive Request where
  | listings
  | assessment (id : String)
deriving Repr, DecidableEq

/-- The mount effect (`useEffect` with empty deps) issues the single
`GET /listings` request. -/
def mountRequests : List Request := [Request.listings]

/-- Outcome of the listings fetch: a parsed JSON array, or any failure
(network error or JSON parse error — `res.ok` is not checked). -/
inductive ListingsResult where
  | ok (data : List String)
  | failure
deriving Repr, DecidableEq

/-- The listings-fetch continuation: on success `setListings(data)` and, if
`data.length > 0`, `setSelectedListing(data[0])`; on failure
`setError('Failed to load listings')`. -/
def listingsFetchDone (st : AppState) : ListingsResult → AppState
  | .ok data =>
    { st with
      listings := data
      selectedListing := match data with
        | [] => st.selectedListing
        | x :: _ => x }
  | .failure => { st with error := some "Failed to load listings" }

/-- The selection effect (`useEffect` on `selectedListing`): if the selection
is falsy (the empty string) do nothing; otherwise set loading, clear the
error, and issue `GET /listing/{id}`. -/
def selectionEffect (st : AppState) : AppState × List Request :=
  if st.selectedListing = "" then (st, [])
  else ({ st with loading := true, error := none },
        [Request.assessment st.selectedListing])

/-- Outcome of the assessment fetch: `ok` (HTTP success and parsed JSON),
`httpError` (`!res.ok`, which throws `Error('Listing not found')`), or any
other failure carrying its own message. -/
inductive AssessResult where
  | ok (data : Assessment)
  | httpError
  | failure (msg : String)
deriving Repr, DecidableEq

/-- The assessment-fetch continuation: success stores the assessment and
clears loading; both failure paths run the `catch` handler, which stores
`err.message` and clears loading (and touches nothing else). -/
def assessmentFetchDone (st : AppState) : AssessResult → AppState
  | .ok data => { st with assessment := some data, loading := false }
  | .httpError => { st with error := some "Listing not found", loading := false }
  | .failure msg => { st with error := some msg, loading := false }

/-- The JSX guard `assessment && !loading` for the assessment-dependent
section. -/
def showsAssessmentSection (st : AppState) : Bool :=
  st.assessment.isSome && !st.loading

/-- The JSX guard `error && ...`: the error region's text when rendered. -/
def errorRegion (st : AppState) : Option String := st.error

/-! ## Helper lemmas -/

/-- `replace('_', ' ')` semantics: the first underscore is replaced,
everything after it is untouched. -/
theorem replaceFirstUnderscore_append (a b : List Char) (ha : '_' ∉ a) :
    replaceFirstUnderscore (a ++ '_' :: b) = a ++ ' ' :: b := by
  induction a with
  | nil => simp [replaceFirstUnderscore]
  | cons c cs ih =>
    simp only [List.mem_cons, not_or] at ha
    have hc : ¬c = '_' := fun hcu => ha.1 hcu.symm
    simp [replaceFirstUnderscore, hc, ih ha.2]

/-- A bind whose continuation always throws, throws. -/
theorem throwsError_bind {α β : Type} (x : Except String α)
    (f : α → Except String β) (hf : ∀ v, throwsError (f v) = true) :
    throwsError (x >>= f) = true := by
  cases x with
  | error e => rfl
  | ok v => exact hf v

/-! ## Claim theorems -/

/-- C1 counterexample: `"toString"` is not one of the three keys, yet the
lookup `actionConfig["toString"]` finds the truthy function inherited from
`Object.prototype`, the `||` fallback is skipped, and the banner renders
class `action-banner undefined` with no text — not the `ignore`
presentation. -/
theorem actionBanner_toString_not_ignore :
    ActionBanner "toString" = ⟨"action-banner undefined", ""⟩ ∧
    ActionBanner "ignore" =
      ⟨"action-banner action-ignore", "✓ No action needed"⟩ ∧
    ActionBanner "toString" ≠ ActionBanner "ignore" := by
  refine ⟨rfl, rfl, ?_⟩
  decide

/-- C1 (amended): `ActionBanner` is a total function of the `action` value:
each of the three known keys renders its fixed class and text; every value
that is neither one of the three keys nor a property name inherited from
`Object.prototype` renders exactly the `ignore` presentation; an inherited
property name (`toString`, `valueOf`, `hasOwnProperty`, `constructor`, …)
makes the lookup truthy, skips the fallback, and renders class
`action-banner undefined` with no text.  It never throws. -/
theorem actionBanner_with_proto_default (action : String) :
    ActionBanner "flag" =
      ⟨"action-banner action-flag",
       "🚨 ACTION REQUIRED: Flag this listing for review"⟩ ∧
    ActionBanner "monitor" =
      ⟨"action-banner action-monitor", "👁️ Keep monitoring this listing"⟩ ∧
    ActionBanner "ignore" =
      ⟨"action-banner action-ignore", "✓ No action needed"⟩ ∧
    (action ≠ "flag" → action ≠ "monitor" → action ≠ "ignore" →
      action ∉ objectPrototypeKeys →
      ActionBanner action = ActionBanner "ignore") ∧
    (action ∈ objectPrototypeKeys →
      ActionBanner action = ⟨"action-banner undefined", ""⟩) := by
  refine ⟨rfl, rfl, rfl, fun h1 h2 h3 h4 => ?_, fun h => ?_⟩
  · simp [ActionBanner, actionConfig, jsOr, JsPropValue.truthy, h1, h2, h3, h4]
  · fin_cases h <;> decide

/-- C1 witness: an unknown non-inherited action value renders the `ignore`
presentation, and the inherited name `valueOf` renders the undefined-class
banner. -/
theorem actionBanner_with_proto_default_witness :
    ActionBanner "escalate" = ActionBanner "ignore" ∧
    ActionBanner "valueOf" = ⟨"action-banner undefined", ""⟩ :=
  ⟨(actionBanner_with_proto_default "escalate").2.2.2.1
      (by decide) (by decide) (by decide) (by decide),
   (actionBanner_with_proto_default "valueOf").2.2.2.2 (by decide)⟩

/-- C2: the rendered trend row prepends the up glyph exactly when the trend
is `improving`, the down glyph exactly when it is `declining`, and no glyph
for every other trend value (including `stable`). -/
theorem aspectCard_trend_glyph (aspect : Aspect) :
    (aspect.trend = "improving" →
      (AspectCard aspect).trendText = "↑ " ++ aspect.trend) ∧
    (aspect.trend = "declining" →
      (AspectCard aspect).trendText = "↓ " ++ aspect.trend) ∧
    (aspect.trend ≠ "improving" → aspect.trend ≠ "declining" →
      (AspectCard aspect).trendText = aspect.trend) := by
  refine ⟨fun h => ?_, fun h => ?_, fun h1 h2 => ?_⟩
  · show trendText aspect.trend = "↑ " ++ aspect.trend
    rw [h]
    decide
  · show trendText aspect.trend = "↓ " ++ aspect.trend
    rw [h]
    decide
  · show trendText aspect.trend = aspect.trend
    rw [trendText, if_neg h1, if_neg h2]
    rfl

/-- C2 witness: a `stable` aspect renders its trend with no glyph. -/
theorem aspectCard_trend_glyph_witness :
    (AspectCard
      ⟨"wifi_speed", -42/100, "Negative", "stable", "High variance", 14⟩
      ).trendText = "stable" :=
  (aspectCard_trend_glyph _).2.2 (by decide) (by decide)

/-- C3: `StatusCard` styles the rating-trust metric with the low-concern
class exactly when `ratingTrust` is the canonical string `Reliable`, and the
high-concern class for every other string. -/
theorem statusCard_ratingTrust_polarity (risk : String) (riskScore : ℚ)
    (confidence : ℚ) (ratingTrust : String) :
    (ratingTrust = "Reliable" →
      (StatusCard risk riskScore confidence ratingTrust).ratingTrustClass
        = "metric-value low") ∧
    (ratingTrust ≠ "Reliable" →
      (StatusCard risk riskScore confidence ratingTrust).ratingTrustClass
        = "metric-value high") := by
  refine ⟨fun h => ?_, fun h => ?_⟩ <;> simp [StatusCard, h]

/-- C3 witness: `Unreliable` gets the high-concern class. -/
theorem statusCard_ratingTrust_polarity_witness :
    (StatusCard "High" 72 (1/2) "Unreliable").ratingTrustClass
      = "metric-value high" :=
  (statusCard_ratingTrust_polarity "High" 72 (1/2) "Unreliable").2 (by decide)

/-- C4: an empty driver sequence renders the positive affirmation message and
zero list items; a non-empty sequence of N strings renders exactly N list
items in input order, each driver verbatim. -/
theorem riskDrivers_empty_and_order (drivers : List String) :
    (drivers = [] →
      RiskDrivers drivers
          = .noDrivers "✓ No significant risk factors detected" ∧
      (RiskDrivers drivers).listItems = []) ∧
    (drivers ≠ [] →
      (RiskDrivers drivers).listItems = drivers ∧
      (RiskDrivers drivers).listItems.length = drivers.length) := by
  refine ⟨fun h => ?_, fun h => ?_⟩
  · subst h
    exact ⟨rfl, rfl⟩
  · have hlen : drivers.length ≠ 0 := by simpa using h
    simp [RiskDrivers, hlen, RiskDriversBody.listItems]

/-- C4 witness: the empty and a one-element driver list. -/
theorem riskDrivers_empty_and_order_witness :
    RiskDrivers [] = .noDrivers "✓ No significant risk factors detected" ∧
    (RiskDrivers ["Noise complaints"]).listItems = ["Noise complaints"] :=
  ⟨((riskDrivers_empty_and_order []).1 rfl).1,
   ((riskDrivers_empty_and_order ["Noise complaints"]).2 (by decide)).1⟩

/-- C5: the aspect-card header replaces only the first underscore of the name
with a space: for a name whose prefix `a` is underscore-free, the underscore
after `a` becomes a space and the entire suffix `b` — any further underscores
included — is kept verbatim. -/
theorem aspectHeader_first_underscore_only (a b : List Char) (ha : '_' ∉ a) :
    aspectHeader (String.mk (a ++ '_' :: b)) = String.mk (a ++ ' ' :: b) := by
  simp [aspectHeader, replaceFirstUnderscore_append a b ha]

/-- C5 witness: a name with two underscores keeps the second one. -/
theorem aspectHeader_first_underscore_only_witness :
    aspectHeader "wifi_speed_test" = "wifi speed_test" :=
  aspectHeader_first_underscore_only
    ['w', 'i', 'f', 'i'] ['s', 'p', 'e', 'e', 'd', '_', 't', 'e', 's', 't']
    (by decide)

/-- C6: for a confidence fraction in `[0, 1]` the displayed confidence is
`Math.round(confidence * 100)` followed by `%`, the rounded value lies in
`[0, 100]`, and in particular confidence `0.8675` displays as `87%`. -/
theorem statusCard_confidence_display (risk : String) (riskScore : ℚ)
    (confidence : ℚ) (ratingTrust : String)
    (h0 : 0 ≤ confidence) (h1 : confidence ≤ 1) :
    (StatusCard risk riskScore confidence ratingTrust).confidenceText
        = toString (jsRound (confidence * 100)) ++ "%" ∧
    0 ≤ jsRound (confidence * 100) ∧ jsRound (confidence * 100) ≤ 100 ∧
    (StatusCard risk riskScore (8675/10000) ratingTrust).confidenceText
        = "87%" := by
  refine ⟨rfl, ?_, ?_, ?_⟩
  · rw [jsRound, Int.le_floor]
    push_cast
    linarith
  · have h : (⌊confidence * 100 + 1/2⌋ : ℤ) < 101 := by
      rw [Int.floor_lt]
      push_cast
      linarith
    rw [jsRound]
    omega
  · have h87 : jsRound ((8675/10000 : ℚ) * 100) = 87 := by norm_num [jsRound]
    show toString (jsRound ((8675/10000 : ℚ) * 100)) ++ "%" = "87%"
    rw [h87]
    rfl

/-- C6 witness: confidence `0.8675` is in range and displays as `87%`. -/
theorem statusCard_confidence_display_witness :
    (StatusCard "High" 72 (8675/10000) "Reliable").confidenceText = "87%" :=
  (statusCard_confidence_display "High" 72 (8675/10000) "Reliable"
    (by norm_num) (by norm_num)).2.2.2

/-- C7 counterexample: an assessment whose `overall_risk` field is missing
makes rendering throw a TypeError (`risk.toLowerCase()` is called on
`undefined`) — the missing field does not propagate as a blank value. -/
theorem renderAssessment_missing_risk_throws :
    throwsError (renderAssessment
      { overall_risk := none, risk_score := some 72, confidence := some (1/2),
        rating_trust := some "Unreliable", aspects := some [],
        risk_drivers := some ["Noise complaints"],
        recommended_action := some "flag", review_count := some 120,
        assessment_date := some "2024-01-15" }) = true := rfl

/-- C7 (amended): rendering is not total on partially-missing Assessments —
a missing `overall_risk`, `aspects`, or `risk_drivers` field each raises a
TypeError (a method or property access on `undefined`); only the fields used
purely in equality tests, arithmetic, or interpolation (`risk_score`,
`confidence`, `rating_trust`, `recommended_action`, `review_count`,
`assessment_date`) propagate as blank/NaN rendered values without failure. -/
theorem renderAssessment_missing_field_behaviour (a : Assessment) (r : String) :
    throwsError (renderAssessment { a with overall_risk := none }) = true ∧
    throwsError (renderAssessment
      { a with overall_risk := some r, aspects := none }) = true ∧
    throwsError (renderAssessment
      { a with overall_risk := some r, risk_drivers := none }) = true ∧
    throwsError (renderAssessment
      { overall_risk := some r, risk_score := none, confidence := none,
        rating_trust := none, aspects := some [], risk_drivers := some [],
        recommended_action := none, review_count := none,
        assessment_date := none }) = false := by
  refine ⟨rfl, rfl, ?_, rfl⟩
  exact throwsError_bind _ _ (fun status =>
    throwsError_bind _ _ (fun grid => rfl))

/-- C8: a non-success HTTP status on the assessment fetch stores exactly the
error message `Listing not found` and clears the loading flag; when no
assessment is stored, the assessment-dependent section does not render while
the error region shows the message. -/
theorem assessment_httpError_not_found (st : AppState) :
    (assessmentFetchDone st .httpError).error = some "Listing not found" ∧
    (assessmentFetchDone st .httpError).loading = false ∧
    (st.assessment = none →
      showsAssessmentSection (assessmentFetchDone st .httpError) = false ∧
      errorRegion (assessmentFetchDone st .httpError)
        = some "Listing not found") := by
  refine ⟨rfl, rfl, fun h => ⟨?_, rfl⟩⟩
  simp [showsAssessmentSection, assessmentFetchDone, h]

/-- C8 witness: a fresh mount whose listings are `["A", "B"]` followed by an
HTTP 404 on the assessment fetch for `A`. -/
theorem assessment_httpError_not_found_witness :
    showsAssessmentSection
      (assessmentFetchDone
        (selectionEffect (listingsFetchDone initState (.ok ["A", "B"]))).1
        .httpError) = false ∧
    errorRegion
      (assessmentFetchDone
        (selectionEffect (listingsFetchDone initState (.ok ["A", "B"]))).1
        .httpError) = some "Listing not found" :=
  (assessment_httpError_not_found _).2.2 rfl

/-- C9 counterexample: the listings response `[""]` is a non-empty sequence,
its first element is auto-selected, yet no assessment fetch is issued for it —
the empty-string identifier is falsy and the selection effect returns
early, refuting the claim that auto-selecting the first element of every
non-empty sequence triggers an assessment fetch for it. -/
theorem mount_empty_id_no_fetch :
    (listingsFetchDone initState (.ok [""])).listings = [""] ∧
    (listingsFetchDone initState (.ok [""])).selectedListing = "" ∧
    (selectionEffect (listingsFetchDone initState (.ok [""]))).2 = [] :=
  ⟨rfl, rfl, rfl⟩

/-- C9 (amended): on mount App issues exactly one listings fetch; on success
it stores the identifiers and auto-selects the first one of a non-empty
sequence, and when that identifier is a non-empty string the selection
effect issues the assessment fetch for it and enters the loading state; on
failure it stores `Failed to load listings` and the listings remain empty. -/
theorem mount_listings_flow (x : String) (xs : List String) (hx : x ≠ "") :
    mountRequests = [Request.listings] ∧
    (listingsFetchDone initState (.ok (x :: xs))).listings = x :: xs ∧
    (listingsFetchDone initState (.ok (x :: xs))).selectedListing = x ∧
    (selectionEffect (listingsFetchDone initState (.ok (x :: xs)))).2
        = [Request.assessment x] ∧
    (selectionEffect (listingsFetchDone initState (.ok (x :: xs)))).1.loading
        = true ∧
    (listingsFetchDone initState .failure).error
        = some "Failed to load listings" ∧
    (listingsFetchDone initState .failure).listings = [] := by
  refine ⟨rfl, rfl, rfl, ?_, ?_, rfl, rfl⟩ <;>
    simp [selectionEffect, listingsFetchDone, hx]

/-- C9 witness: the spec scenario — listings response `["A", "B"]` selects
`A` and issues the assessment fetch for `A`. -/
theorem mount_listings_flow_witness :
    (selectionEffect (listingsFetchDone initState (.ok ["A", "B"]))).2
      = [Request.assessment "A"] :=
  (mount_listings_flow "A" ["B"] (by decide)).2.2.2.1

/-- C10: both assessment-fetch failure paths write only the error message and
the loading flag — the stored assessment, listings and selection are
unchanged — so a previously fetched assessment survives the failure and the
assessment-dependent section renders again once loading is false. -/
theorem assessment_failure_keeps_assessment (st : AppState) (msg : String) :
    (assessmentFetchDone st .httpError).assessment = st.assessment ∧
    (assessmentFetchDone st (.failure msg)).assessment = st.assessment ∧
    (assessmentFetchDone st .httpError).listings = st.listings ∧
    (assessmentFetchDone st .httpError).selectedListing
        = st.selectedListing ∧
    (assessmentFetchDone st (.failure msg)).listings = st.listings ∧
    (assessmentFetchDone st (.failure msg)).selectedListing
        = st.selectedListing ∧
    (assessmentFetchDone st .httpError).loading = false ∧
    (assessmentFetchDone st (.failure msg)).loading = false ∧
    (assessmentFetchDone st (.failure msg)).error = some msg ∧
    (st.assessment.isSome = true →
      showsAssessmentSection (assessmentFetchDone st .httpError) = true ∧
      showsAssessmentSection (assessmentFetchDone st (.failure msg))
        = true) := by
  refine ⟨rfl, rfl, rfl, rfl, rfl, rfl, rfl, rfl, rfl, fun h => ⟨?_, ?_⟩⟩ <;>
    simp [showsAssessmentSection, assessmentFetchDone, h]

/-- C10 witness: a state holding a fetched assessment, hit by a network
failure on the next fetch, still renders the assessment section. -/
theorem assessment_failure_keeps_assessment_witness :
    showsAssessmentSection
      (assessmentFetchDone
        { listings := ["A"], selectedListing := "A",
          assessment := some
            ⟨some "Low", some 12, some (9/10), some "Reliable", some [],
             some [], some "ignore", some 5, some "2024-01-15"⟩,
          loading := false, error := none }
        (.failure "NetworkError when attempting to fetch resource."))
      = true :=
  ((assessment_failure_keeps_assessment
      { listings := ["A"], selectedListing := "A",
        assessment := some
          ⟨some "Low", some 12, some (9/10), some "Reliable", some [],
           some [], some "ignore", some 5, some "2024-01-15"⟩,
        loading := false, error := none }
      "NetworkError when attempting to fetch resource.").2.2.2.2.2.2.2.2.2 rfl).2

end GuestLens
